import Mathlib

/-!
Shallow embedding of the `EZLynxFormAutomation` orchestrator from
`scrapybara_automation.py` (the human-in-the-loop agent-driven
form-filling state machine), together with proofs about its state
transitions, invariants, parsing protocol and error handling.

Modelling conventions:
* Python strings are modelled as Lean `String`; `str.split(sep)`,
  `str.strip()` and `"sep".join(l)` are modelled by the structurally
  recursive `pySplit`, `pyStrip` and `pyJoin` below, so that every
  term evaluates inside the kernel.
* The Python `dict` `human_inputs_collected` is modelled as an
  insertion-ordered association list: assignment to an existing key
  updates the value in place, assignment to a new key appends.
* The remote Scrapybara handle `self.computer` is modelled as a
  `Bool` (set / not set); the external agent runtime is modelled by an
  explicit outcome parameter per `Runner.run` call.
* Wall-clock timestamps on log entries and all file-system side
  effects (`_save_log`, screenshots, `instance_id.txt`) are omitted;
  log entries keep their level and message text.
-/

/-- A credentials record as loaded from `credentials.json`; `none`
models an absent key (`dict.get` returning `None`). -/
structure Credentials where
  destination_url : Option String
  username : Option String
  password : Option String
deriving DecidableEq, Repr

/-- An email-content record as loaded from `extracted_email.json`. -/
structure EmailContent where
  subject : Option String
  body : Option String
deriving DecidableEq, Repr

/-- One entry of `self.log_entries` (timestamp omitted, see header). -/
structure LogEntry where
  level : String
  message : String
deriving DecidableEq, Repr

/-- The mutable state of one `EZLynxFormAutomation` instance
(`AutomationSession` in the spec's data model). -/
structure AutomationSession where
  credentials : Credentials
  email_content : EmailContent
  status : String
  log_entries : List LogEntry
  computer : Bool
  require_human_input : Bool
  human_input_prompt : String
  human_input_field : String
  human_inputs_collected : List (String × String)
deriving DecidableEq, Repr

/-- The state built by `EZLynxFormAutomation.__init__`: status
`"initialized"`, no computer handle, no pending input, empty collected
inputs and log (the credential/email records stand for the data loaded
by `_load_data`). -/
def freshSession (creds : Credentials) (email : EmailContent) : AutomationSession :=
  { credentials := creds
    email_content := email
    status := "initialized"
    log_entries := []
    computer := false
    require_human_input := false
    human_input_prompt := ""
    human_input_field := ""
    human_inputs_collected := [] }

/-- Python truthiness test `not x` for an optional string: true when
the key is absent (`None`) or the string is empty. -/
def pyFalsy : Option String → Bool
  | none => true
  | some s => s == ""

/-- `self.log(message, level)`: append one entry to `log_entries`
(console echo and `_save_log` file write omitted). -/
def logE (s : AutomationSession) (message : String) (level : String) : AutomationSession :=
  { s with log_entries := s.log_entries ++ [⟨level, message⟩] }

/-- Python `dict.get(k)` on the insertion-ordered association-list
model of a dict: value of the first entry with the given key. -/
def assocGet (l : List (String × String)) (k : String) : Option String :=
  match l with
  | [] => none
  | p :: ps => if p.1 = k then some p.2 else assocGet ps k

/-- Python dict assignment `d[k] = v` on the association-list model:
overwrite in place when the key is present, otherwise append at the
end. -/
def dictInsert (l : List (String × String)) (k v : String) : List (String × String) :=
  match assocGet l k with
  | some _ => l.map (fun p => if p.1 = k then (k, v) else p)
  | none => l ++ [(k, v)]

/-- Python whitespace as removed by `str.strip()`. -/
def pySpace (c : Char) : Bool :=
  c == ' ' || c == '\t' || c == '\n' || c == '\r' || c == '\x0b' || c == '\x0c'

/-- Python `str.strip()` on the character list. -/
def pyStripL (l : List Char) : List Char :=
  ((l.dropWhile pySpace).reverse.dropWhile pySpace).reverse

/-- Python `str.strip()`. -/
def pyStrip (s : String) : String := ⟨pyStripL s.data⟩

/-- Whether `sep` occurs at the head of `l`. -/
def isPrefixL : List Char → List Char → Bool
  | [], _ => true
  | _ :: _, [] => false
  | a :: as, b :: bs => a == b && isPrefixL as bs

/-- Fuel-driven worker for Python `str.split(sep)` with non-empty
`sep`: scan left to right, cutting at each non-overlapping occurrence
of `sep`; structural in the fuel so that terms evaluate inside the
kernel. -/
def pySplitAux (sep : List Char) : Nat → List Char → List Char → List (List Char)
  | 0, _, acc => [acc.reverse]
  | _ + 1, [], acc => [acc.reverse]
  | fuel + 1, c :: cs, acc =>
      if isPrefixL sep (c :: cs) then
        acc.reverse :: pySplitAux sep fuel ((c :: cs).drop sep.length) []
      else
        pySplitAux sep fuel cs (c :: acc)

/-- Python `s.split(sep)` for a non-empty separator: one part per
occurrence of `sep`, plus one (empty parts kept). -/
def pySplit (s sep : String) : List String :=
  (pySplitAux sep.data (s.data.length + 1) s.data []).map (fun l => ⟨l⟩)

/-- Worker for Python `sep.join(parts)`. -/
def pyJoinL (sep : List Char) : List (List Char) → List Char
  | [] => []
  | [x] => x
  | x :: y :: rest => x ++ sep ++ pyJoinL sep (y :: rest)

/-- Python `sep.join(parts)`. -/
def pyJoin (sep : String) (parts : List String) : String :=
  ⟨pyJoinL sep.data (parts.map String.data)⟩

/-- The rendering `"\n".join(f"{field}: {value}" for ...)` of the
collected human inputs used in the continuation prompt. -/
def renderHumanInputs (l : List (String × String)) : String :=
  pyJoin "\n" (l.map (fun p => p.1 ++ ": " ++ p.2))

/-- The literal human-input marker scanned for in agent output. -/
def markerStr : String := "HUMAN_INPUT_REQUIRED:"

/-- Python `markerStr in text` (`split` yields one part per separator
occurrence plus one). -/
def containsMarker (text : String) : Bool :=
  2 ≤ (pySplit text markerStr).length

/-- The `input_request` local:
`text.split("HUMAN_INPUT_REQUIRED:")[1].strip()` (the segment between
the first and second marker occurrence). -/
def inputRequestOf (text : String) : String :=
  pyStrip ((pySplit text markerStr).getD 1 "")

/-- `field_name = input_request.split("-")[0].strip()`. -/
def parse_field (text : String) : String :=
  pyStrip ((pySplit (inputRequestOf text) "-").headD "")

/-- `explanation = "-".join(input_request.split("-")[1:]).strip()`. -/
def parse_explanation (text : String) : String :=
  pyStrip (pyJoin "-" ((pySplit (inputRequestOf text) "-").drop 1))

/-- Parse of the remainder after the marker following the spec's
words (§4.3 output parsing protocol): the remainder is **everything
after the first occurrence** of the marker — not just the segment up
to a possible second occurrence.  The subsequent split-on-`-`,
rejoin and trim steps are word-for-word the same as the code's; the
remainder is stripped before splitting, matching the code's placement
(immaterial, as both output pieces are stripped). -/
def specRemainderOf (text : String) : String :=
  pyStrip (pyJoin markerStr ((pySplit text markerStr).drop 1))

/-- FieldName per the spec's words: everything before the first `-`
of the remainder, trimmed. -/
def spec_parse_field (text : String) : String :=
  pyStrip ((pySplit (specRemainderOf text) "-").headD "")

/-- Explanation per the spec's words: everything after the first `-`
of the remainder, rejoining any subsequent `-` characters, trimmed. -/
def spec_parse_explanation (text : String) : String :=
  pyStrip (pyJoin "-" ((pySplit (specRemainderOf text) "-").drop 1))

/-- The human-facing prompt `f"Please provide value for: {field}\n{explanation}"`. -/
def humanPromptFor (field explanation : String) : String :=
  "Please provide value for: " ++ field ++ "\n" ++ explanation

/-- Outcome of one `Runner.run` call: the agent either returns a final
output (with a flag recording whether the last item of
`result.to_input_list()` carries a truthy `pending_safety_checks`
value), or the call raises. -/
inductive AgentOutcome where
  | success (finalOutput : String) (pendingSafety : Bool)
  | exception (msg : String)
deriving DecidableEq, Repr

/-- Environment for `fill_applicant_form` / `provide_human_input`:
the outcome of the first `Runner.run` call and of the (dead, see
below) safety-check retry call. -/
structure AgentEnv where
  first : AgentOutcome
  second : AgentOutcome
deriving DecidableEq, Repr

/-- Outcome of `initialize_scrapybara`'s environment: either the
instance comes up (carrying its id), or an exception is raised, with
`computerAssigned` recording whether `self.computer` had already been
assigned (the `AsyncScrapybaraUbuntu(...)` constructor at line 127
runs before the `await ... initialize()` call at line 133 that can
fail). -/
inductive InitOutcome where
  | started (instanceId : String)
  | exception (computerAssigned : Bool) (msg : String)
deriving DecidableEq, Repr

/-- Return value of an orchestrator method: Python `True`, `False`,
the `requires_input` dict, the `{"success": True, "message": ...}` /
`{"success": False, "message": ...}` dicts of `provide_human_input`
and `run_automation`, or `run_automation`'s
`{"success": True, "status": "waiting_for_input", "human_input": ...}`. -/
inductive OpResult where
  | retTrue
  | retFalse
  | needsInput (field : String) (prompt : String)
  | successMsg (message : String)
  | failureMsg (message : String)
  | awaitingInput (field : String) (prompt : String)
deriving DecidableEq, Repr

/-- Observable outcome of one orchestrator method call: the new
session state, the returned value, the successive values assigned to
`self.status` during the call, and the instruction texts passed to
`Runner.run`, in order. -/
structure StepOut where
  state : AutomationSession
  result : OpResult
  statusTrace : List String
  sentPrompts : List String
deriving DecidableEq, Repr

/-- The login instruction f-string (lines 173-182), including its
exact indentation. -/
def login_prompt (url username password : String) : String :=
  "\n            Navigate to the following web page:\n            URL: " ++ url ++
  "\n\n            Log in using the following credentials:\n                Username: " ++ username ++
  "\n                Password: " ++ password ++
  "\n            \n            Wait for the page to load after login.\n            "

/-- The form-filling instruction f-string (lines 237-254). -/
def fill_prompt (email_body : String) : String :=
  "\n            You are now logged into EZLynx. Your task is to fill out a new applicant form using information from this email:\n\n            " ++ email_body ++
  "\n\n            Follow these steps:\n            1. Look for a \"New Application\" or \"Add Applicant\" button and click it\n            2. Fill out the form fields with information from the email\n            3. Look for business name, address, industry, and all other relevant information in the email\n            4. Leave non-required fields empty if the information is not available in the email\n            5. If a REQUIRED field does not have corresponding information in the email, STOP and ask for human input\n               by ending your response with exactly \"HUMAN_INPUT_REQUIRED: [field name] - [brief explanation]\"\n            6. Only submit the form when all required fields are filled\n            7. If you need human input, take a screenshot first so the human can see the form\n            8. Required fields are usually marked with an asterisk (*) but if you need human input for any required field that is not marked with an asterisk, STOP and ask for human input as described\n            \n            Think step by step and be methodical in filling out the form.\n            "

/-- The continuation instruction f-string (lines 352-369): restates
the email body, then the rendered accumulated human inputs. -/
def continuation_prompt (email_body human_inputs_text : String) : String :=
  "\n            Continue filling out the EZLynx form. You were previously working with this email content:\n            \n            " ++ email_body ++
  "\n            \n            You have received additional information from a human for fields that weren't in the email:\n            \n            " ++ human_inputs_text ++
  "\n            \n            Please continue filling out the form with this new information. Remember:\n            1. Leave non-required fields empty if the information is not available\n            2. If you encounter another REQUIRED field without corresponding information, STOP and ask for human input\n               by ending your response with exactly \"HUMAN_INPUT_REQUIRED: [field name] - [brief explanation]\"\n            3. Only submit the form when all required fields are filled\n            4. Take a screenshot first if you need more human input so the human can see the form\n            5. Required fields are usually marked with an asterisk (*) but if you need human input for any required field that is not marked with an asterisk, STOP and ask for human input as described\n            Continue where you left off with the form.\n            "

/-- CPython's message for `del l["..."]` applied to a list. -/
def typeErrorMsg : String := "list indices must be integers or slices, not str"

/-- `initialize_scrapybara` (lines 120-154).  Sets status
`"initializing"`, acquires the remote instance, and on success sets
status back to `"initialized"`; on exception sets status `"error"`.
The `instance_id.txt` write and the commented-out screenshot are
omitted. -/
def initScrapybara (s : AutomationSession) (env : InitOutcome) : StepOut :=
  let s := logE s "Initializing Scrapybara instance..." "info"
  let s := { s with status := "initializing" }
  match env with
  | .started instId =>
      let s := { s with computer := true }
      let s := logE s ("Using Scrapybara Instance ID: " ++ instId) "info"
      let s := { s with status := "initialized" }
      let s := logE s "Scrapybara instance initialized successfully" "info"
      ⟨s, .retTrue, ["initializing", "initialized"], []⟩
  | .exception assigned msg =>
      let s := { s with computer := s.computer || assigned }
      let s := { s with status := "error" }
      let s := logE s ("Error initializing Scrapybara: " ++ msg) "error"
      ⟨s, .retFalse, ["initializing", "error"], []⟩

/-- `login_with_agent` (lines 156-216).  Guard: computer handle set;
then all three credentials must be truthy (else log
`"Missing login credentials"` and return `False` — note the code does
**not** touch `self.status` on this path); then the agent runs a login
instruction, success landing on `"logged_in"` and an exception on
`"error"`. -/
def login_with_agent (s : AutomationSession) (env : AgentOutcome) : StepOut :=
  if !s.computer then
    ⟨logE s "Scrapybara instance not initialized" "error", .retFalse, [], []⟩
  else
    let url := s.credentials.destination_url
    let username := s.credentials.username
    let password := s.credentials.password
    if pyFalsy url || pyFalsy username || pyFalsy password then
      ⟨logE s "Missing login credentials" "error", .retFalse, [], []⟩
    else
      let prompt := login_prompt (url.getD "") (username.getD "") (password.getD "")
      let s := logE s "Starting login process with OpenAI Agent..." "info"
      let s := { s with status := "logging_in" }
      let s := logE s "Agent initialized, starting login process..." "info"
      match env with
      | .success out _ =>
          let s := logE s ("Agent completed login: " ++ out) "info"
          let s := { s with status := "logged_in" }
          let s := logE s "Login successful" "info"
          ⟨s, .retTrue, ["logging_in", "logged_in"], [prompt]⟩
      | .exception msg =>
          let s := { s with status := "error" }
          let s := logE s ("Error during login with agent: " ++ msg) "error"
          ⟨s, .retFalse, ["logging_in", "error"], [prompt]⟩

/-- Shared tail of `fill_applicant_form` and `provide_human_input`
after their first `Runner.run` returned `(out, pendingSafety)`: the
safety-check block, then the `HUMAN_INPUT_REQUIRED:` scan.

When the last input item carries truthy `pending_safety_checks`, the
code logs `"Safety checks failed, retrying..."` and then executes
`del vals["pending_safety_checks"]` where `vals` **is** that
pending-safety-checks value (a list of safety checks) — not the
enclosing item dict — so the statement raises `TypeError` and control
jumps to the method's `except` handler; the second `Runner.run` (the
intended acknowledged retry) is unreachable.  `onError` is the
respective `except` handler, `screenshotName` the screenshot file
logged on the marker path, and `onDone`/`doneResult` the marker-absent
completion. -/
def agentResultTail (s : AutomationSession) (out : String) (pendingSafety : Bool)
    (onError : AutomationSession → String → AutomationSession × OpResult)
    (screenshotName : String)
    (doneLog : String) (doneResult : OpResult)
    (prompt : String) : StepOut :=
  if pendingSafety then
    let s := logE s "Safety checks failed, retrying..." "warn"
    let (s, r) := onError s typeErrorMsg
    ⟨s, r, ["filling_form", "error"], [prompt]⟩
  else if containsMarker out then
    let field := parse_field out
    let explanation := parse_explanation out
    let s := logE s ("Screenshot saved to screenshots/" ++ screenshotName) "info"
    let s := logE s ("Human input required for field: " ++ field) "warn"
    let s := logE s ("Explanation: " ++ explanation) "warn"
    let s := { s with
      require_human_input := true
      human_input_prompt := humanPromptFor field explanation
      human_input_field := field
      status := "waiting_for_input" }
    ⟨s, .needsInput field (humanPromptFor field explanation),
      ["filling_form", "waiting_for_input"], [prompt]⟩
  else
    let s := { s with status := "form_filled" }
    let s := logE s doneLog "info"
    let s := logE s ("Agent output: " ++ out) "info"
    ⟨s, doneResult, ["filling_form", "form_filled"], [prompt]⟩

/-- `fill_applicant_form` (lines 218-323).  Guards: computer handle
set, status `"logged_in"`, non-empty email body (each guard logs an
error and returns `False` without touching `self.status`); then
status `"filling_form"`, one agent run, and the marker protocol of
`agentResultTail`. -/
def fill_applicant_form (s : AutomationSession) (env : AgentEnv) : StepOut :=
  if !s.computer then
    ⟨logE s "Scrapybara instance not initialized" "error", .retFalse, [], []⟩
  else if s.status != "logged_in" then
    ⟨logE s "Must be logged in before filling form" "error", .retFalse, [], []⟩
  else
    let email_body := s.email_content.body.getD ""
    if email_body == "" then
      ⟨logE s "No email content available for form filling" "error", .retFalse, [], []⟩
    else
      let prompt := fill_prompt email_body
      let s := logE s "Starting form filling process with OpenAI Agent..." "info"
      let s := { s with status := "filling_form" }
      let s := logE s "Agent initialized, starting form filling process..." "info"
      match env.first with
      | .exception msg =>
          let s := { s with status := "error" }
          let s := logE s ("Error during form filling with agent: " ++ msg) "error"
          ⟨s, .retFalse, ["filling_form", "error"], [prompt]⟩
      | .success out pending =>
          agentResultTail s out pending
            (fun s msg =>
              (logE { s with status := "error" }
                ("Error during form filling with agent: " ++ msg) "error", .retFalse))
            "form_input_needed.png"
            "Form filled successfully" .retTrue prompt

/-- `provide_human_input` (lines 325-430).  Guards: computer handle
set, status `"waiting_for_input"` (each guard logs an error and
returns `False`); then the input is recorded under the pending field,
the pending flag cleared, status `"filling_form"`, the continuation
instruction built from the email body and **all** collected inputs,
one agent run, and the marker protocol of `agentResultTail`. -/
def provide_human_input (s : AutomationSession) (input_value : String) (env : AgentEnv) : StepOut :=
  if !s.computer then
    ⟨logE s "Scrapybara instance not initialized" "error", .retFalse, [], []⟩
  else if s.status != "waiting_for_input" then
    ⟨logE s "Not waiting for human input" "error", .retFalse, [], []⟩
  else
    let s := { s with
      human_inputs_collected := dictInsert s.human_inputs_collected s.human_input_field input_value }
    let s := logE s ("Received human input for " ++ s.human_input_field ++ ": " ++ input_value) "info"
    let s := { s with require_human_input := false }
    let s := { s with status := "filling_form" }
    let email_body := s.email_content.body.getD ""
    let human_inputs_text := renderHumanInputs s.human_inputs_collected
    let prompt := continuation_prompt email_body human_inputs_text
    let s := logE s "Agent continuing form filling with human input..." "info"
    match env.first with
    | .exception msg =>
        let s := { s with status := "error" }
        let s := logE s ("Error during form filling with human input: " ++ msg) "error"
        ⟨s, .failureMsg msg, ["filling_form", "error"], [prompt]⟩
    | .success out pending =>
        agentResultTail s out pending
          (fun s msg =>
            (logE { s with status := "error" }
              ("Error during form filling with human input: " ++ msg) "error", .failureMsg msg))
          "form_input_needed_again.png"
          "Form filled successfully with human input" (.successMsg "Form filled successfully") prompt

/-- `run_automation` (lines 432-465): drives the three steps in
order; a `False` from a step raises the corresponding
`Exception(...)`, caught by the `except` handler which sets status
`"error"` and returns the failure dict; the `requires_input` dict of
`fill_applicant_form` is wrapped into the awaiting-input outcome with
status left untouched, while `True` advances status to
`"completed"`; a plain `False` from `fill_applicant_form` falls
through to `{"success": False, "message": "Form filling failed"}`
without touching status. -/
def run_automation (s : AutomationSession)
    (envInit : InitOutcome) (envLogin : AgentOutcome) (envFill : AgentEnv) : StepOut :=
  let o1 := initScrapybara s envInit
  if o1.result != .retTrue then
    let s := { o1.state with status := "error" }
    let s := logE s "Error in automation process: Failed to initialize Scrapybara" "error"
    ⟨s, .failureMsg "Failed to initialize Scrapybara",
      o1.statusTrace ++ ["error"], o1.sentPrompts⟩
  else
    let o2 := login_with_agent o1.state envLogin
    if o2.result != .retTrue then
      let s := { o2.state with status := "error" }
      let s := logE s "Error in automation process: Failed to login to the website" "error"
      ⟨s, .failureMsg "Failed to login to the website",
        o1.statusTrace ++ o2.statusTrace ++ ["error"], o1.sentPrompts ++ o2.sentPrompts⟩
    else
      let o3 := fill_applicant_form o2.state envFill
      match o3.result with
      | .needsInput field prompt =>
          let s := logE o3.state "Automation paused waiting for human input" "info"
          ⟨s, .awaitingInput field prompt,
            o1.statusTrace ++ o2.statusTrace ++ o3.statusTrace,
            o1.sentPrompts ++ o2.sentPrompts ++ o3.sentPrompts⟩
      | .retTrue =>
          let s := { o3.state with status := "completed" }
          let s := logE s "Automation process completed successfully" "info"
          ⟨s, .successMsg "Automation completed successfully",
            o1.statusTrace ++ o2.statusTrace ++ o3.statusTrace ++ ["completed"],
            o1.sentPrompts ++ o2.sentPrompts ++ o3.sentPrompts⟩
      | _ =>
          ⟨o3.state, .failureMsg "Form filling failed",
            o1.statusTrace ++ o2.statusTrace ++ o3.statusTrace,
            o1.sentPrompts ++ o2.sentPrompts ++ o3.sentPrompts⟩

/-- `cleanup` (lines 467-475): when a computer handle exists, logs,
stops the instance (the environment may raise with a message), and
logs the outcome; never touches `self.status` or `self.computer`. -/
def cleanupOp (s : AutomationSession) (stopError : Option String) : StepOut :=
  if s.computer then
    let s := logE s "Stopping Scrapybara instance..." "info"
    match stopError with
    | none => ⟨logE s "Scrapybara instance stopped" "info", .retTrue, [], []⟩
    | some msg => ⟨logE s ("Error stopping Scrapybara: " ++ msg) "error", .retTrue, [], []⟩
  else
    ⟨s, .retTrue, [], []⟩

/-- One orchestrator operation together with the environment
outcomes it will observe. -/
inductive Op where
  | opInit (env : InitOutcome)
  | opLogin (env : AgentOutcome)
  | opFill (env : AgentEnv)
  | opProvide (value : String) (env : AgentEnv)
  | opRunFull (envInit : InitOutcome) (envLogin : AgentOutcome) (envFill : AgentEnv)
  | opCleanup (stopError : Option String)
deriving DecidableEq, Repr

/-- Dispatch one operation on a session. -/
def step (s : AutomationSession) : Op → StepOut
  | .opInit env => initScrapybara s env
  | .opLogin env => login_with_agent s env
  | .opFill env => fill_applicant_form s env
  | .opProvide v env => provide_human_input s v env
  | .opRunFull e1 e2 e3 => run_automation s e1 e2 e3
  | .opCleanup e => cleanupOp s e

/-- Run a sequence of operations, keeping the final state. -/
def runOps (s : AutomationSession) : List Op → AutomationSession
  | [] => s
  | op :: rest => runOps (step s op).state rest

/-- The concatenated status assignments of a sequence of operations. -/
def opsTrace (s : AutomationSession) : List Op → List String
  | [] => []
  | op :: rest => (step s op).statusTrace ++ opsTrace (step s op).state rest

/-- The edges of the §4.3 state graph: the linear chain
`initialized → initializing → initialized → logging_in → logged_in →
filling_form ⇄ waiting_for_input`, `filling_form → form_filled →
completed`, plus `any state → error`. -/
def statusEdge (a b : String) : Bool :=
  b == "error" ||
  (a == "initialized" && (b == "initializing" || b == "logging_in")) ||
  (a == "initializing" && b == "initialized") ||
  (a == "logging_in" && b == "logged_in") ||
  (a == "logged_in" && b == "filling_form") ||
  (a == "filling_form" && (b == "waiting_for_input" || b == "form_filled")) ||
  (a == "waiting_for_input" && b == "filling_form") ||
  (a == "form_filled" && b == "completed")

/-- A status assignment is unobjectionable when it keeps the value or
follows a graph edge (re-assigning the current value is not a change
of `status`). -/
def allowedStep (a b : String) : Bool := a == b || statusEdge a b

/-- Every consecutive pair of `st :: l` is an `allowedStep`. -/
def edgesFrom : String → List String → Bool
  | _, [] => true
  | st, x :: xs => allowedStep st x && edgesFrom x xs

/-- A status strictly beyond the initialization phase. -/
def beyondInit (st : String) : Bool :=
  !(st == "initialized" || st == "initializing")

/-- Once a status beyond the initialization phase appears, every
later status is also beyond it — i.e. the run never re-enters
`initialized` (or `initializing`) after leaving the initialization
phase. -/
def noReentry : List String → Bool
  | [] => true
  | x :: xs => bif beyondInit x then xs.all beyondInit else noReentry xs

/-- The nine status strings the orchestrator ever assigns. -/
def statusNames : List String :=
  ["initialized", "initializing", "logging_in", "logged_in", "filling_form",
   "waiting_for_input", "form_filled", "completed", "error"]

/-- The per-state invariant: the pending-input flag is set exactly in
`waiting_for_input`, the status is one of the nine names, and a
session that is waiting for input holds the remote session handle
(entering `waiting_for_input` requires it and it is never cleared). -/
def invB (s : AutomationSession) : Bool :=
  (s.require_human_input == (s.status == "waiting_for_input")) &&
  (statusNames.contains s.status &&
   (!(s.status == "waiting_for_input") || s.computer))

/-- Spec preconditions on invoking an operation in a given state:
`initialize`, `login` and `runFull` are only issued while the session
is in `initialized` (§4.3: initialize has no preceding step, login
requires the session ready); the remaining operations guard
themselves. -/
def opValid (s : AutomationSession) : Op → Bool
  | .opInit _ => s.status == "initialized"
  | .opLogin _ => s.status == "initialized"
  | .opRunFull _ _ _ => s.status == "initialized"
  | _ => true

/-- A sequence of operations each of which respects `opValid` in the
state it is issued from. -/
def validOps (s : AutomationSession) : List Op → Bool
  | [] => true
  | op :: rest => opValid s op && validOps (step s op).state rest

/-- Last element of a list, with a default for the empty list. -/
def lastD (l : List String) (d : String) : String :=
  match l with
  | [] => d
  | x :: xs => lastD xs x

theorem lastD_nil (d : String) : lastD [] d = d := rfl

theorem lastD_cons (x : String) (xs : List String) (d : String) :
    lastD (x :: xs) d = lastD xs x := rfl

theorem invB_logE (s : AutomationSession) (m lv : String) : invB (logE s m lv) = invB s := rfl

theorem edgesFrom_append (l1 l2 : List String) :
    ∀ st, edgesFrom st (l1 ++ l2) = (edgesFrom st l1 && edgesFrom (lastD l1 st) l2) := by
  induction l1 with
  | nil => intro st; simp [edgesFrom, lastD]
  | cons x xs ih =>
      intro st
      simp only [List.cons_append, edgesFrom, lastD_cons, List.append_eq, ih x, Bool.and_assoc]

theorem noReentry_append (l1 l2 : List String) :
    noReentry (l1 ++ l2) =
      (bif l1.any beyondInit then noReentry l1 && l2.all beyondInit else noReentry l2) := by
  induction l1 with
  | nil => simp [noReentry]
  | cons x xs ih =>
      cases hb : beyondInit x with
      | true => simp [noReentry, hb, List.any_cons, List.all_append]
      | false => simp [noReentry, hb, List.any_cons, ih]

theorem all_lastD {p : String → Bool} (l : List String) (d : String)
    (h : l.all p = true) (hd : p d = true) : p (lastD l d) = true := by
  induction l generalizing d with
  | nil => simpa [lastD] using hd
  | cons x xs ih =>
      simp only [List.all_cons, Bool.and_eq_true] at h
      simpa [lastD_cons] using ih x h.2 h.1

theorem noReentry_last (x : String) (l : List String)
    (hn : noReentry (x :: l) = true) (ha : (x :: l).any beyondInit = true) :
    beyondInit (lastD l x) = true := by
  induction l generalizing x with
  | nil =>
      simpa [lastD] using ha
  | cons y ys ih =>
      cases hb : beyondInit x with
      | true =>
          simp only [noReentry, hb, cond_true] at hn
          simp only [List.all_cons, Bool.and_eq_true] at hn
          simpa [lastD_cons] using all_lastD ys y hn.2 hn.1
      | false =>
          simp only [noReentry, hb, cond_false] at hn
          simp only [List.any_cons, hb, Bool.false_or] at ha
          simpa [lastD_cons] using ih y hn ha

theorem not_any_lastD (x : String) (l : List String)
    (h : (x :: l).any beyondInit = false) : beyondInit (lastD l x) = false := by
  induction l generalizing x with
  | nil => simpa [lastD] using h
  | cons y ys ih =>
      simp only [List.any_cons, Bool.or_eq_false_iff] at h
      simpa [lastD_cons] using ih y (by simp [List.any_cons, h.2])

/-- The facts about one operation needed for the sequence-level
trace theorems: the invariant is preserved, each status assignment
follows the graph, the final status is the last assignment, once past
initialization every assignment stays past it, and the assignments
never re-enter the initialization phase after leaving it. -/
def StepProps (s : AutomationSession) (o : StepOut) : Prop :=
  invB o.state = true ∧
  edgesFrom s.status o.statusTrace = true ∧
  o.state.status = lastD o.statusTrace s.status ∧
  (beyondInit s.status = true → o.statusTrace.all beyondInit = true) ∧
  noReentry (s.status :: o.statusTrace) = true

theorem init_props (s : AutomationSession) (env : InitOutcome)
    (hInv : invB s = true) (hst : s.status = "initialized") :
    StepProps s (initScrapybara s env) := by
  have hreq : s.require_human_input = false := by
    simp only [invB, Bool.and_eq_true, beq_iff_eq] at hInv
    rw [hInv.1, hst]
    decide
  cases env <;>
    simp [StepProps, initScrapybara, invB, logE, edgesFrom, allowedStep, statusEdge,
      beyondInit, noReentry, lastD, statusNames, hst, hreq]

theorem login_props (s : AutomationSession) (env : AgentOutcome)
    (hInv : invB s = true) (hst : s.status = "initialized") :
    StepProps s (login_with_agent s env) := by
  have hreq : s.require_human_input = false := by
    simp only [invB, Bool.and_eq_true, beq_iff_eq] at hInv
    rw [hInv.1, hst]
    decide
  cases hc : s.computer with
  | false =>
      simp [StepProps, login_with_agent, invB, logE, edgesFrom, allowedStep, statusEdge,
        beyondInit, noReentry, lastD, statusNames, hst, hreq, hc]
  | true =>
      cases hf : pyFalsy s.credentials.destination_url || pyFalsy s.credentials.username ||
          pyFalsy s.credentials.password with
      | true =>
          simp [StepProps, login_with_agent, invB, logE, edgesFrom, allowedStep, statusEdge,
            beyondInit, noReentry, lastD, statusNames, hst, hreq, hc, hf]
      | false =>
          cases env <;>
            simp [StepProps, login_with_agent, invB, logE, edgesFrom, allowedStep, statusEdge,
              beyondInit, noReentry, lastD, statusNames, hst, hreq, hc, hf]

theorem guard_props (s : AutomationSession) (m : String) (r : OpResult)
    (hInv : invB s = true) :
    StepProps s ⟨logE s m "error", r, [], []⟩ := by
  refine ⟨by simpa [invB_logE] using hInv, rfl, rfl, by intro _h; rfl, ?_⟩
  show noReentry [s.status] = true
  unfold noReentry
  cases beyondInit s.status <;> simp [noReentry]

theorem fill_props (s : AutomationSession) (env : AgentEnv)
    (hInv : invB s = true) :
    StepProps s (fill_applicant_form s env) := by
  cases hc : s.computer with
  | false =>
      simpa [fill_applicant_form, hc] using
        guard_props s "Scrapybara instance not initialized" .retFalse hInv
  | true =>
      cases hls : s.status == "logged_in" with
      | false =>
          have hne : s.status ≠ "logged_in" := by
            intro h
            simp [h] at hls
          simpa [fill_applicant_form, hc, hne] using
            guard_props s "Must be logged in before filling form" .retFalse hInv
      | true =>
          have hst : s.status = "logged_in" := by simpa [beq_iff_eq] using hls
          have hreq : s.require_human_input = false := by
            simp only [invB, Bool.and_eq_true, beq_iff_eq] at hInv
            rw [hInv.1, hst]
            decide
          cases hb : s.email_content.body.getD "" == "" with
          | true =>
              have hbe : s.email_content.body.getD "" = "" := by simpa [beq_iff_eq] using hb
              simpa [fill_applicant_form, hc, hst, hbe] using
                guard_props s "No email content available for form filling" .retFalse hInv
          | false =>
              have hbe : s.email_content.body.getD "" ≠ "" := by
                intro h
                simp [h] at hb
              rcases env with ⟨efst, esnd⟩
              cases efst with
              | exception msg =>
                  simp [StepProps, fill_applicant_form, invB, logE, edgesFrom, allowedStep,
                    statusEdge, beyondInit, noReentry, lastD, statusNames, hst, hreq, hc, hbe]
              | success out pending =>
                  cases pending with
                  | true =>
                      simp [StepProps, fill_applicant_form, agentResultTail, invB, logE, edgesFrom,
                        allowedStep, statusEdge, beyondInit, noReentry, lastD, statusNames,
                        hst, hreq, hc, hbe]
                  | false =>
                      cases hm : containsMarker out <;>
                        simp [StepProps, fill_applicant_form, agentResultTail, invB, logE, edgesFrom,
                          allowedStep, statusEdge, beyondInit, noReentry, lastD, statusNames,
                          hst, hreq, hc, hbe, hm]

theorem provide_props (s : AutomationSession) (v : String) (env : AgentEnv)
    (hInv : invB s = true) :
    StepProps s (provide_human_input s v env) := by
  cases hc : s.computer with
  | false =>
      simpa [provide_human_input, hc] using
        guard_props s "Scrapybara instance not initialized" .retFalse hInv
  | true =>
      cases hw : s.status == "waiting_for_input" with
      | false =>
          have hne : s.status ≠ "waiting_for_input" := by
            intro h
            simp [h] at hw
          simpa [provide_human_input, hc, hne] using
            guard_props s "Not waiting for human input" .retFalse hInv
      | true =>
          have hst : s.status = "waiting_for_input" := by simpa [beq_iff_eq] using hw
          rcases env with ⟨efst, esnd⟩
          cases efst with
          | exception msg =>
              simp [StepProps, provide_human_input, invB, logE, edgesFrom, allowedStep,
                statusEdge, beyondInit, noReentry, lastD, statusNames, hst, hc]
          | success out pending =>
              cases pending with
              | true =>
                  simp [StepProps, provide_human_input, agentResultTail, invB, logE, edgesFrom,
                    allowedStep, statusEdge, beyondInit, noReentry, lastD, statusNames, hst, hc]
              | false =>
                  cases hm : containsMarker out <;>
                    simp [StepProps, provide_human_input, agentResultTail, invB, logE, edgesFrom,
                      allowedStep, statusEdge, beyondInit, noReentry, lastD, statusNames,
                      hst, hc, hm]

theorem cleanup_props (s : AutomationSession) (e : Option String)
    (hInv : invB s = true) :
    StepProps s (cleanupOp s e) := by
  have hnre : noReentry [s.status] = true := by
    unfold noReentry
    cases beyondInit s.status <;> simp [noReentry]
  cases hc : s.computer <;> cases e <;>
    refine ⟨by simpa [cleanupOp, hc, invB_logE] using hInv, ?_, ?_, ?_, ?_⟩ <;>
    simp [cleanupOp, hc, edgesFrom, lastD, invB_logE, logE, hnre]

theorem runFull_props (s : AutomationSession)
    (envInit : InitOutcome) (envLogin : AgentOutcome) (envFill : AgentEnv)
    (hInv : invB s = true) (hst : s.status = "initialized") :
    StepProps s (run_automation s envInit envLogin envFill) := by
  have hreq : s.require_human_input = false := by
    simp only [invB, Bool.and_eq_true, beq_iff_eq] at hInv
    rw [hInv.1, hst]
    decide
  cases envInit with
  | exception assigned msg =>
      simp [StepProps, run_automation, initScrapybara, invB, logE, edgesFrom, allowedStep,
        statusEdge, beyondInit, noReentry, lastD, statusNames, bne_iff_ne, hst, hreq]
  | started instId =>
      cases hf : pyFalsy s.credentials.destination_url || pyFalsy s.credentials.username ||
          pyFalsy s.credentials.password with
      | true =>
          simp [StepProps, run_automation, initScrapybara, login_with_agent, invB, logE,
            edgesFrom, allowedStep, statusEdge, beyondInit, noReentry, lastD, statusNames,
            bne_iff_ne, hst, hreq, hf]
      | false =>
          cases envLogin with
          | exception msg =>
              simp [StepProps, run_automation, initScrapybara, login_with_agent, invB, logE,
                edgesFrom, allowedStep, statusEdge, beyondInit, noReentry, lastD, statusNames,
                bne_iff_ne, hst, hreq, hf]
          | success lg lgPending =>
              cases hb : s.email_content.body.getD "" == "" with
              | true =>
                  have hbe : s.email_content.body.getD "" = "" := by simpa [beq_iff_eq] using hb
                  simp [StepProps, run_automation, initScrapybara, login_with_agent,
                    fill_applicant_form, invB, logE, edgesFrom, allowedStep, statusEdge,
                    beyondInit, noReentry, lastD, statusNames, bne_iff_ne, hst, hreq, hf, hbe]
              | false =>
                  have hbe : s.email_content.body.getD "" ≠ "" := by
                    intro h
                    simp [h] at hb
                  rcases envFill with ⟨efst, esnd⟩
                  cases efst with
                  | exception msg =>
                      simp [StepProps, run_automation, initScrapybara, login_with_agent,
                        fill_applicant_form, invB, logE, edgesFrom, allowedStep, statusEdge,
                        beyondInit, noReentry, lastD, statusNames, bne_iff_ne, hst, hreq, hf, hbe]
                  | success out pending =>
                      cases pending with
                      | true =>
                          simp [StepProps, run_automation, initScrapybara, login_with_agent,
                            fill_applicant_form, agentResultTail, invB, logE, edgesFrom,
                            allowedStep, statusEdge, beyondInit, noReentry, lastD, statusNames,
                            bne_iff_ne, hst, hreq, hf, hbe]
                      | false =>
                          cases hm : containsMarker out <;>
                            simp [StepProps, run_automation, initScrapybara, login_with_agent,
                              fill_applicant_form, agentResultTail, invB, logE, edgesFrom,
                              allowedStep, statusEdge, beyondInit, noReentry, lastD, statusNames,
                              bne_iff_ne, hst, hreq, hf, hbe, hm]

theorem step_props (s : AutomationSession) (op : Op)
    (hInv : invB s = true) (hv : opValid s op = true) :
    StepProps s (step s op) := by
  cases op with
  | opInit env =>
      exact init_props s env hInv (by simpa [opValid, beq_iff_eq] using hv)
  | opLogin env =>
      exact login_props s env hInv (by simpa [opValid, beq_iff_eq] using hv)
  | opFill env => exact fill_props s env hInv
  | opProvide v env => exact provide_props s v env hInv
  | opRunFull e1 e2 e3 =>
      exact runFull_props s e1 e2 e3 hInv (by simpa [opValid, beq_iff_eq] using hv)
  | opCleanup e => exact cleanup_props s e hInv

theorem noReentry_cons_false (x : String) (xs : List String)
    (h : beyondInit x = false) : noReentry (x :: xs) = noReentry xs := by
  simp [noReentry, h]

theorem noReentry_cons_true (x : String) (xs : List String)
    (h : beyondInit x = true) : noReentry (x :: xs) = xs.all beyondInit := by
  simp [noReentry, h]

theorem validOps_props (ops : List Op) :
    ∀ s : AutomationSession, invB s = true → validOps s ops = true →
      invB (runOps s ops) = true ∧
      edgesFrom s.status (opsTrace s ops) = true ∧
      (beyondInit s.status = true → (opsTrace s ops).all beyondInit = true) ∧
      noReentry (s.status :: opsTrace s ops) = true := by
  induction ops with
  | nil =>
      intro s hInv _
      refine ⟨hInv, rfl, by intro _h; rfl, ?_⟩
      show noReentry [s.status] = true
      unfold noReentry
      cases beyondInit s.status <;> simp [noReentry]
  | cons op rest ih =>
      intro s hInv hvalid
      simp only [validOps, Bool.and_eq_true] at hvalid
      obtain ⟨hop, hrest⟩ := hvalid
      obtain ⟨hInv1, hEdges1, hLast1, hAll1, hNoRe1⟩ := step_props s op hInv hop
      obtain ⟨hInvN, hEdgesN, hAllN, hNoReN⟩ := ih (step s op).state hInv1 hrest
      have hstat : (step s op).state.status = lastD (step s op).statusTrace s.status := hLast1
      constructor
      · simpa [runOps] using hInvN
      constructor
      · show edgesFrom s.status ((step s op).statusTrace ++ opsTrace (step s op).state rest) = true
        rw [edgesFrom_append, hEdges1, ← hstat, hEdgesN]
        rfl
      constructor
      · intro hBey
        show ((step s op).statusTrace ++ opsTrace (step s op).state rest).all beyondInit = true
        rw [List.all_append, hAll1 hBey, hAllN ?_]
        · rfl
        · rw [hstat]
          exact all_lastD _ _ (hAll1 hBey) hBey
      · show noReentry ((s.status :: (step s op).statusTrace) ++ opsTrace (step s op).state rest) = true
        rw [noReentry_append]
        cases hAny : (s.status :: (step s op).statusTrace).any beyondInit with
        | true =>
            have hLastBey : beyondInit (lastD (step s op).statusTrace s.status) = true :=
              noReentry_last _ _ hNoRe1 hAny
            rw [cond_true, hNoRe1, hAllN (by rw [hstat]; exact hLastBey)]
            rfl
        | false =>
            have hLastNot : beyondInit (lastD (step s op).statusTrace s.status) = false :=
              not_any_lastD _ _ hAny
            rw [cond_false]
            have hunf : noReentry ((step s op).state.status :: opsTrace (step s op).state rest) =
                noReentry (opsTrace (step s op).state rest) :=
              noReentry_cons_false _ _ (by rw [hstat]; exact hLastNot)
            rw [← hunf]
            exact hNoReN

theorem validOps_take (ops : List Op) :
    ∀ (s : AutomationSession) (n : Nat), validOps s ops = true → validOps s (ops.take n) = true := by
  induction ops with
  | nil => intro s n _; simp [validOps]
  | cons op rest ih =>
      intro s n hv
      cases n with
      | zero => rfl
      | succ m =>
          simp only [validOps, Bool.and_eq_true] at hv
          simp only [List.take_succ_cons, validOps, Bool.and_eq_true]
          exact ⟨hv.1, ih (step s op).state m hv.2⟩

theorem invB_flag_iff (s : AutomationSession) (h : invB s = true) :
    s.require_human_input = true ↔ s.status = "waiting_for_input" := by
  simp only [invB, Bool.and_eq_true, beq_iff_eq] at h
  rw [h.1]
  exact ⟨fun hb => by simpa using hb, fun he => by simp [he]⟩

theorem invB_waiting_computer (s : AutomationSession) (h : invB s = true)
    (hw : s.status = "waiting_for_input") : s.computer = true := by
  simp only [invB, Bool.and_eq_true, Bool.or_eq_true, Bool.not_eq_true'] at h
  rcases h.2.2 with hfalse | hcomp
  · rw [hw] at hfalse
    simp at hfalse
  · exact hcomp

theorem assocGet_replace (l : List (String × String)) (k v k' : String) :
    assocGet (l.map (fun p => if p.1 = k then (k, v) else p)) k' =
      (if k' = k then (assocGet l k).map (fun _ => v) else assocGet l k') := by
  induction l with
  | nil => by_cases h : k' = k <;> simp [assocGet, h]
  | cons p ps ih =>
      by_cases hpk : p.1 = k
      · by_cases hk : k' = k
        · subst hk
          simp [assocGet, hpk, ih]
        · have hk2 : ¬k = k' := fun h => hk h.symm
          simp [assocGet, hpk, hk, hk2, ih]
      · by_cases hph : p.1 = k'
        · have hk : ¬k' = k := by
            rw [← hph]
            exact hpk
          simp [assocGet, hpk, hph, hk]
        · by_cases hk : k' = k
          · subst hk
            simp [assocGet, hpk, hph, ih]
          · simp [assocGet, hpk, hph, ih, hk]

theorem assocGet_append_new (l : List (String × String)) (k v k' : String)
    (hnone : assocGet l k = none) :
    assocGet (l ++ [(k, v)]) k' = (if k' = k then some v else assocGet l k') := by
  induction l with
  | nil =>
      by_cases h : k' = k
      · subst h
        simp [assocGet]
      · have h2 : ¬k = k' := fun he => h he.symm
        simp [assocGet, h, h2]
  | cons p ps ih =>
      have hp : ¬p.1 = k := by
        intro h
        simp [assocGet, h] at hnone
      have hrest : assocGet ps k = none := by
        simpa [assocGet, hp] using hnone
      by_cases hph : p.1 = k'
      · have hk : ¬k' = k := by
          rw [← hph]
          exact hp
        simp [assocGet, hph, hk]
      · by_cases hk : k' = k
        · subst hk
          simp [assocGet, hph, hp, ih hrest]
        · simp [assocGet, hph, hk, ih hrest]

/-- Python-dict update semantics for `dictInsert`: the updated key maps
to the new value, every other key is untouched. -/
theorem dictInsert_assocGet (l : List (String × String)) (k v k' : String) :
    assocGet (dictInsert l k v) k' =
      (if k' = k then some v else assocGet l k') := by
  unfold dictInsert
  cases hg : assocGet l k with
  | some w =>
      rw [assocGet_replace]
      by_cases h : k' = k <;> simp [h, hg]
  | none => exact assocGet_append_new l k v k' hg

theorem map_fst_replace (l : List (String × String)) (k v : String) :
    (l.map (fun p => if p.1 = k then (k, v) else p)).map Prod.fst = l.map Prod.fst := by
  induction l with
  | nil => rfl
  | cons p ps ih =>
      by_cases hpk : p.1 = k <;> simp [hpk, ih]

/-- Python-dict key-order semantics for `dictInsert`: updating an
existing key keeps the key sequence, a new key is appended at the
end. -/
theorem dictInsert_keys (l : List (String × String)) (k v : String) :
    (dictInsert l k v).map Prod.fst =
      (if (assocGet l k).isSome then l.map Prod.fst else l.map Prod.fst ++ [k]) := by
  unfold dictInsert
  cases hg : assocGet l k with
  | some w =>
      simp only [hg, Option.isSome_some, if_true]
      exact map_fst_replace l k v
  | none => simp [hg]

/-- Concrete credentials fixture (§8 end-to-end scenario). -/
def credsEx : Credentials := ⟨some "https://ezlynx.example", some "agent1", some "secret"⟩

/-- Concrete email fixture (§8 end-to-end scenario). -/
def emailEx : EmailContent := ⟨some "New Lead", some "Acme Corp, 123 Main St"⟩

/-- A freshly constructed session over the fixtures. -/
def sessionEx : AutomationSession := freshSession credsEx emailEx

/-- Agent environment whose first run reports plain completion. -/
def envNoMarkerEx : AgentEnv := ⟨.success "Form submitted successfully." false, .success "ack" false⟩

/-- Agent environment whose first run ends with a human-input marker. -/
def envMarkerEx : AgentEnv :=
  ⟨.success "HUMAN_INPUT_REQUIRED: Industry - no industry mentioned" false, .success "ack" false⟩

/-- A session mid-run: handle acquired, login done. -/
def loggedInEx : AutomationSession := { sessionEx with computer := true, status := "logged_in" }

/-- A session suspended on a pending human-input request. -/
def waitingEx : AutomationSession :=
  { sessionEx with
    computer := true
    status := "waiting_for_input"
    require_human_input := true
    human_input_field := "Business Address"
    human_input_prompt := "Please provide value for: Business Address\nNot present in the email text" }

/-- A precondition-respecting operation sequence over the fixtures. -/
def opsWitness : List Op :=
  [Op.opInit (.started "inst-1"), Op.opLogin (.success "logged in" false),
   Op.opFill envMarkerEx, Op.opProvide "Plumbing" envNoMarkerEx, Op.opCleanup none]

/-- A sequence that re-runs `initialize` from `waiting_for_input`. -/
def opsBadReinit : List Op :=
  [Op.opInit (.started "inst-1"), Op.opLogin (.success "logged in" false),
   Op.opFill envMarkerEx, Op.opInit (.started "inst-2")]

/-- A sequence that re-runs `login` from `waiting_for_input`. -/
def opsBadRelogin : List Op :=
  [Op.opInit (.started "inst-1"), Op.opLogin (.success "logged in" false),
   Op.opFill envMarkerEx, Op.opLogin (.success "logged in again" false)]

/-- C1 (amended): for every sequence of orchestrator operations applied
to a freshly constructed AutomationSession in which `initialize`,
`login` and `runFull` are invoked only while `status = "initialized"`
(the remaining operations guard themselves), every change of `status`
follows an edge of the §4.3 state graph, and no such sequence
re-enters the initialization statuses after the session has moved
beyond them.  (As literally stated, over unrestricted operation
sequences, the claim is false — see the counterexample theorem.) -/
theorem c1_valid_sequences_follow_state_graph (creds : Credentials) (email : EmailContent)
    (ops : List Op) (hv : validOps (freshSession creds email) ops = true) :
    edgesFrom (freshSession creds email).status (opsTrace (freshSession creds email) ops) = true ∧
    noReentry ((freshSession creds email).status :: opsTrace (freshSession creds email) ops) = true := by
  have h := validOps_props ops (freshSession creds email) rfl hv
  exact ⟨h.2.1, h.2.2.2⟩

theorem c1_witness :
    validOps (freshSession credsEx emailEx) opsWitness = true ∧
    (edgesFrom (freshSession credsEx emailEx).status
        (opsTrace (freshSession credsEx emailEx) opsWitness) = true ∧
     noReentry ((freshSession credsEx emailEx).status ::
        opsTrace (freshSession credsEx emailEx) opsWitness) = true) :=
  ⟨by decide, c1_valid_sequences_follow_state_graph credsEx emailEx opsWitness (by decide)⟩

/-- C1 counterexample: the claim as stated quantifies over *every*
sequence of orchestrator operations, but `initialize` and `login`
carry no status guard in the code; re-invoking `initialize` from
`waiting_for_input` takes the banned edge `waiting_for_input →
initializing` and re-enters `initialized` after the session had left
it. -/
theorem c1_counterexample :
    edgesFrom (freshSession credsEx emailEx).status
      (opsTrace (freshSession credsEx emailEx) opsBadReinit) = false ∧
    noReentry ((freshSession credsEx emailEx).status ::
      opsTrace (freshSession credsEx emailEx) opsBadReinit) = false := by
  decide

/-- C2 (amended): after every operation of a sequence in which
`initialize`, `login` and `runFull` are invoked only while
`status = "initialized"`, the pending human-input request
(`require_human_input` with its field and prompt) is set iff
`status = "waiting_for_input"`.  (As literally stated, over
unrestricted operation sequences, the claim is false — see the
counterexample theorem.) -/
theorem c2_pending_request_iff_waiting (creds : Credentials) (email : EmailContent)
    (ops : List Op) (n : Nat) (hv : validOps (freshSession creds email) ops = true) :
    ((runOps (freshSession creds email) (ops.take n)).require_human_input = true ↔
     (runOps (freshSession creds email) (ops.take n)).status = "waiting_for_input") := by
  have hvt := validOps_take ops (freshSession creds email) n hv
  have h := validOps_props (ops.take n) (freshSession creds email) rfl hvt
  exact invB_flag_iff _ h.1

theorem c2_witness :
    validOps (freshSession credsEx emailEx) opsWitness = true ∧
    ((runOps (freshSession credsEx emailEx) (opsWitness.take 3)).require_human_input = true ↔
     (runOps (freshSession credsEx emailEx) (opsWitness.take 3)).status = "waiting_for_input") :=
  ⟨by decide, c2_pending_request_iff_waiting credsEx emailEx opsWitness 3 (by decide)⟩

/-- C2 counterexample: calling `login` (which has no status guard)
while a human-input request is pending moves `status` to `logged_in`
but leaves `require_human_input` set, violating the stated
invariant. -/
theorem c2_counterexample :
    (runOps (freshSession credsEx emailEx) opsBadRelogin).require_human_input = true ∧
    (runOps (freshSession credsEx emailEx) opsBadRelogin).status = "logged_in" ∧
    ¬((runOps (freshSession credsEx emailEx) opsBadRelogin).require_human_input = true ↔
      (runOps (freshSession credsEx emailEx) opsBadRelogin).status = "waiting_for_input") := by
  decide

/-- The singleton join reduces to its only part. -/
theorem pyJoin_singleton (sep x : String) : pyJoin sep [x] = x := rfl

/-- C3: in `fill_applicant_form` and in the continuation step of
`provide_human_input`, whenever the agent run returns finalOutputText
(with no pending safety checks): if the text contains the literal
marker `HUMAN_INPUT_REQUIRED:`, the orchestrator sets the human-input
request with prompt `"Please provide value for: " ++ field ++ "\n" ++
explanation`, moves status to `waiting_for_input` and returns the
structured needs-input result (not an error); if the marker is
absent, it moves status to `form_filled` and returns success, never a
pending-input outcome. -/
theorem c3_marker_protocol (s : AutomationSession) (out : String) (snd : AgentOutcome)
    (hc : s.computer = true) :
    (s.status = "logged_in" → s.email_content.body.getD "" ≠ "" →
      (if containsMarker out then
        (fill_applicant_form s ⟨.success out false, snd⟩).state.require_human_input = true ∧
        (fill_applicant_form s ⟨.success out false, snd⟩).state.human_input_field = parse_field out ∧
        (fill_applicant_form s ⟨.success out false, snd⟩).state.human_input_prompt =
          humanPromptFor (parse_field out) (parse_explanation out) ∧
        (fill_applicant_form s ⟨.success out false, snd⟩).state.status = "waiting_for_input" ∧
        (fill_applicant_form s ⟨.success out false, snd⟩).result =
          OpResult.needsInput (parse_field out)
            (humanPromptFor (parse_field out) (parse_explanation out))
      else
        (fill_applicant_form s ⟨.success out false, snd⟩).state.status = "form_filled" ∧
        (fill_applicant_form s ⟨.success out false, snd⟩).result = OpResult.retTrue)) ∧
    (∀ v, s.status = "waiting_for_input" →
      (if containsMarker out then
        (provide_human_input s v ⟨.success out false, snd⟩).state.require_human_input = true ∧
        (provide_human_input s v ⟨.success out false, snd⟩).state.human_input_field = parse_field out ∧
        (provide_human_input s v ⟨.success out false, snd⟩).state.human_input_prompt =
          humanPromptFor (parse_field out) (parse_explanation out) ∧
        (provide_human_input s v ⟨.success out false, snd⟩).state.status = "waiting_for_input" ∧
        (provide_human_input s v ⟨.success out false, snd⟩).result =
          OpResult.needsInput (parse_field out)
            (humanPromptFor (parse_field out) (parse_explanation out))
      else
        (provide_human_input s v ⟨.success out false, snd⟩).state.status = "form_filled" ∧
        (provide_human_input s v ⟨.success out false, snd⟩).result =
          OpResult.successMsg "Form filled successfully")) := by
  constructor
  · intro hst hbody
    cases hm : containsMarker out <;>
      simp [fill_applicant_form, agentResultTail, logE, hc, hst, hbody, hm]
  · intro v hw
    cases hm : containsMarker out <;>
      simp [provide_human_input, agentResultTail, logE, hc, hw, hm]

theorem c3_witness :
    (fill_applicant_form loggedInEx envMarkerEx).state.status = "waiting_for_input" ∧
    (fill_applicant_form loggedInEx envMarkerEx).result =
      OpResult.needsInput "Industry" "Please provide value for: Industry\nno industry mentioned" := by
  have he : envMarkerEx =
      ⟨.success "HUMAN_INPUT_REQUIRED: Industry - no industry mentioned" false,
       .success "ack" false⟩ := rfl
  rw [he]
  have h := (c3_marker_protocol loggedInEx
      "HUMAN_INPUT_REQUIRED: Industry - no industry mentioned" (.success "ack" false) rfl).1
      rfl (by decide)
  rw [if_pos (by decide)] at h
  refine ⟨h.2.2.2.1, ?_⟩
  rw [h.2.2.2.2]
  decide

/-- The double-marker input on which the code's parse and the claim's
split rule disagree. -/
def doubleMarkerEx : String := "HUMAN_INPUT_REQUIRED: A - x HUMAN_INPUT_REQUIRED: ignored - y"

/-- C4 counterexample: on an output in which the marker occurs twice,
the code parses only the segment between the first two occurrences
(`split("HUMAN_INPUT_REQUIRED:")[1]`), so its explanation stops at the
second marker, while the claim's "text after the marker" rule keeps
everything after the first occurrence. -/
theorem c4_counterexample :
    containsMarker doubleMarkerEx = true ∧
    parse_explanation doubleMarkerEx = "x" ∧
    spec_parse_explanation doubleMarkerEx = "x HUMAN_INPUT_REQUIRED: ignored - y" ∧
    parse_explanation doubleMarkerEx ≠ spec_parse_explanation doubleMarkerEx := by
  decide

/-- C4 (amended): for agent output in which the marker occurs exactly
once, the text after the marker is split on the first `-`: everything
before it, trimmed, is the field name, everything after it (rejoining
later `-` characters), trimmed, is the explanation — the code's parse
agrees with that rule; when the marker occurs more than once, only
the segment between the first two occurrences is parsed.  The claim's
concrete example parses as stated. -/
theorem c4_split_on_first_hyphen (t : String)
    (h : (pySplit t markerStr).length = 2) :
    parse_field t = spec_parse_field t ∧
    parse_explanation t = spec_parse_explanation t ∧
    parse_field "...HUMAN_INPUT_REQUIRED: Business Address - Not present in the email text" =
      "Business Address" ∧
    parse_explanation "...HUMAN_INPUT_REQUIRED: Business Address - Not present in the email text" =
      "Not present in the email text" := by
  have hex : ∃ a b, pySplit t markerStr = [a, b] := by
    match hl : pySplit t markerStr with
    | [] => rw [hl] at h; simp at h
    | [a] => rw [hl] at h; simp at h
    | [a, b] => exact ⟨a, b, rfl⟩
    | a :: b :: c :: r => rw [hl] at h; simp at h
  obtain ⟨a, b, hab⟩ := hex
  refine ⟨?_, ?_, by decide, by decide⟩ <;>
    simp [parse_field, spec_parse_field, parse_explanation, spec_parse_explanation,
      inputRequestOf, specRemainderOf, hab, pyJoin_singleton]

theorem c4_witness :
    (pySplit "zz HUMAN_INPUT_REQUIRED: Industry - no industry mentioned" markerStr).length = 2 ∧
    parse_field "zz HUMAN_INPUT_REQUIRED: Industry - no industry mentioned" =
      spec_parse_field "zz HUMAN_INPUT_REQUIRED: Industry - no industry mentioned" :=
  ⟨by decide,
   (c4_split_on_first_hyphen "zz HUMAN_INPUT_REQUIRED: Industry - no industry mentioned"
      (by decide)).1⟩

/-- Agent environment whose first run flags pending safety checks. -/
def envPendingEx : AgentEnv := ⟨.success "done" true, .success "second run done" false⟩

/-- C5 (code bug): when the agent result carries pending safety
checks, the code's `del vals["pending_safety_checks"]` indexes the
list of checks with a string and raises `TypeError`; the except
handler moves the session to `error` and the agent is never
re-invoked (one instruction sent, not two), contradicting the
documented single acknowledged retry. -/
theorem c5_safety_retry_crashes :
    (fill_applicant_form loggedInEx envPendingEx).state.status = "error" ∧
    (fill_applicant_form loggedInEx envPendingEx).result = OpResult.retFalse ∧
    (fill_applicant_form loggedInEx envPendingEx).sentPrompts.length = 1 ∧
    (provide_human_input waitingEx "123 Main St" envPendingEx).state.status = "error" ∧
    (provide_human_input waitingEx "123 Main St" envPendingEx).result =
      OpResult.failureMsg typeErrorMsg ∧
    (provide_human_input waitingEx "123 Main St" envPendingEx).sentPrompts.length = 1 := by
  decide

/-- C6: calling `provide_human_input(value)` while
`status = "waiting_for_input"` (such reachable sessions always hold
the handle, which is part of `invB`) records the value under the
pending field with Python-dict overwrite semantics, clears the
pending request (unless the continuation immediately raises a new
one), moves status to `filling_form`, and sends exactly one
continuation instruction rendering the email body together with
**all** accumulated collected inputs in insertion order. -/
theorem c6_provide_human_input_updates (s : AutomationSession) (v : String) (env : AgentEnv)
    (hInv : invB s = true) (hw : s.status = "waiting_for_input") :
    (provide_human_input s v env).state.human_inputs_collected =
      dictInsert s.human_inputs_collected s.human_input_field v ∧
    (provide_human_input s v env).statusTrace.head? = some "filling_form" ∧
    (provide_human_input s v env).sentPrompts =
      [continuation_prompt (s.email_content.body.getD "")
        (renderHumanInputs (dictInsert s.human_inputs_collected s.human_input_field v))] ∧
    ((provide_human_input s v env).state.require_human_input = false ∨
      ∃ f p, (provide_human_input s v env).result = OpResult.needsInput f p) ∧
    (∀ k, assocGet (dictInsert s.human_inputs_collected s.human_input_field v) k =
      (if k = s.human_input_field then some v else assocGet s.human_inputs_collected k)) ∧
    (dictInsert s.human_inputs_collected s.human_input_field v).map Prod.fst =
      (if (assocGet s.human_inputs_collected s.human_input_field).isSome
       then s.human_inputs_collected.map Prod.fst
       else s.human_inputs_collected.map Prod.fst ++ [s.human_input_field]) := by
  have hc : s.computer = true := invB_waiting_computer s hInv hw
  rcases env with ⟨efst, esnd⟩
  have hrest : (∀ k, assocGet (dictInsert s.human_inputs_collected s.human_input_field v) k =
      (if k = s.human_input_field then some v else assocGet s.human_inputs_collected k)) ∧
      (dictInsert s.human_inputs_collected s.human_input_field v).map Prod.fst =
        (if (assocGet s.human_inputs_collected s.human_input_field).isSome
         then s.human_inputs_collected.map Prod.fst
         else s.human_inputs_collected.map Prod.fst ++ [s.human_input_field]) :=
    ⟨fun k => dictInsert_assocGet _ _ _ k, dictInsert_keys _ _ _⟩
  cases efst with
  | exception m =>
      refine ⟨?_, ?_, ?_, Or.inl ?_, hrest⟩ <;>
        simp [provide_human_input, logE, hc, hw]
  | success out pending =>
      cases pending with
      | true =>
          refine ⟨?_, ?_, ?_, Or.inl ?_, hrest⟩ <;>
            simp [provide_human_input, agentResultTail, logE, hc, hw]
      | false =>
          cases hm : containsMarker out with
          | true =>
              refine ⟨?_, ?_, ?_, Or.inr ⟨parse_field out,
                humanPromptFor (parse_field out) (parse_explanation out), ?_⟩, hrest⟩ <;>
                simp [provide_human_input, agentResultTail, logE, hc, hw, hm]
          | false =>
              refine ⟨?_, ?_, ?_, Or.inl ?_, hrest⟩ <;>
                simp [provide_human_input, agentResultTail, logE, hc, hw, hm]

theorem c6_witness :
    invB waitingEx = true ∧
    ((provide_human_input waitingEx "123 Main St" envNoMarkerEx).state.human_inputs_collected =
      dictInsert waitingEx.human_inputs_collected waitingEx.human_input_field "123 Main St" ∧
     (provide_human_input waitingEx "123 Main St" envNoMarkerEx).statusTrace.head? =
      some "filling_form") := by
  constructor
  · decide
  · have h := c6_provide_human_input_updates waitingEx "123 Main St" envNoMarkerEx
      (by decide) rfl
    exact ⟨h.1, h.2.1⟩

/-- A session that holds the handle but is not waiting for input. -/
def notWaitingEx : AutomationSession := { sessionEx with computer := true }

/-- C7 (amended): with the session handle set and
`status ≠ "waiting_for_input"`, `provide_human_input` returns the
NotWaitingError failure — `False` after appending the single
error-level log entry `"Not waiting for human input"` — and leaves
status, collected inputs and the pending-request flag unchanged, with
no agent call; log entries do grow by that one entry, and with the
handle unset the failure is the not-initialized error instead (see
the counterexample theorem for both deviations from the claim as
stated). -/
theorem c7_not_waiting_rejected (s : AutomationSession) (v : String) (env : AgentEnv)
    (hc : s.computer = true) (hw : s.status ≠ "waiting_for_input") :
    provide_human_input s v env =
      ⟨logE s "Not waiting for human input" "error", OpResult.retFalse, [], []⟩ := by
  simp [provide_human_input, hc, hw]

theorem c7_witness :
    provide_human_input notWaitingEx "123 Main St" envNoMarkerEx =
      ⟨logE notWaitingEx "Not waiting for human input" "error", OpResult.retFalse, [], []⟩ :=
  c7_not_waiting_rejected notWaitingEx "123 Main St" envNoMarkerEx rfl (by decide)

/-- C7 counterexample: the rejected call is not free of state change —
it appends an error log entry, so the log differs before and after;
and when the handle is unset the failure logged is
`"Scrapybara instance not initialized"`, not the NotWaitingError
message, even though `status ≠ "waiting_for_input"` as well. -/
theorem c7_counterexample :
    (provide_human_input notWaitingEx "123 Main St" envNoMarkerEx).state.log_entries ≠
      notWaitingEx.log_entries ∧
    (provide_human_input sessionEx "123 Main St" envNoMarkerEx).state.log_entries =
      [⟨"error", "Scrapybara instance not initialized"⟩] := by
  decide

/-- C8 (amended): a `login` call with any of the three credentials
absent logs `"Missing login credentials"` at error level and returns
failure, but leaves `status` unchanged (the code returns before
touching it — it does *not* move to `error`); a `fillForm` call with
an empty email body logs
`"No email content available for form filling"` and returns failure,
leaving `status` at `logged_in` (not `error`). -/
theorem c8_missing_data_failures (s : AutomationSession) (envL : AgentOutcome) (envF : AgentEnv) :
    (s.computer = true →
      (s.credentials.destination_url = none ∨ s.credentials.username = none ∨
       s.credentials.password = none) →
      login_with_agent s envL =
        ⟨logE s "Missing login credentials" "error", OpResult.retFalse, [], []⟩) ∧
    (s.computer = true → s.status = "logged_in" → s.email_content.body.getD "" = "" →
      fill_applicant_form s envF =
        ⟨logE s "No email content available for form filling" "error",
          OpResult.retFalse, [], []⟩) := by
  constructor
  · intro hc hmiss
    have hf : (pyFalsy s.credentials.destination_url || pyFalsy s.credentials.username ||
        pyFalsy s.credentials.password) = true := by
      rcases hmiss with h | h | h <;> simp [pyFalsy, h]
    simp [login_with_agent, hc, hf]
  · intro hc hst hb
    simp [fill_applicant_form, hc, hst, hb]

/-- Credentials with the password key absent. -/
def credsNoPassEx : Credentials := ⟨some "https://ezlynx.example", some "agent1", none⟩

/-- A ready session whose credentials lack the password. -/
def loginMissingEx : AutomationSession := { freshSession credsNoPassEx emailEx with computer := true }

/-- A logged-in session whose email body is empty. -/
def emptyBodyEx : AutomationSession :=
  { freshSession credsEx ⟨some "New Lead", some ""⟩ with computer := true, status := "logged_in" }

theorem c8_witness :
    login_with_agent loginMissingEx (.success "agent output" false) =
      ⟨logE loginMissingEx "Missing login credentials" "error", OpResult.retFalse, [], []⟩ ∧
    fill_applicant_form emptyBodyEx envNoMarkerEx =
      ⟨logE emptyBodyEx "No email content available for form filling" "error",
        OpResult.retFalse, [], []⟩ :=
  ⟨(c8_missing_data_failures loginMissingEx (.success "agent output" false) envNoMarkerEx).1
      rfl (Or.inr (Or.inr rfl)),
   (c8_missing_data_failures emptyBodyEx (.success "agent output" false) envNoMarkerEx).2
      rfl rfl rfl⟩

/-- C8 counterexample: on both missing-data paths the status stays
where it was — `"initialized"` after the failed `login`, `"logged_in"`
after the failed `fillForm` — and in particular is **not**
`"error"` as the claim states. -/
theorem c8_counterexample :
    (login_with_agent loginMissingEx (.success "agent output" false)).result =
      OpResult.retFalse ∧
    (login_with_agent loginMissingEx (.success "agent output" false)).state.status =
      "initialized" ∧
    (login_with_agent loginMissingEx (.success "agent output" false)).state.status ≠ "error" ∧
    (fill_applicant_form emptyBodyEx envNoMarkerEx).result = OpResult.retFalse ∧
    (fill_applicant_form emptyBodyEx envNoMarkerEx).state.status = "logged_in" ∧
    (fill_applicant_form emptyBodyEx envNoMarkerEx).state.status ≠ "error" := by
  decide

/-- C9 (amended): `run_automation` executes initialize, then login,
then fillForm in order; a pending-input result from fillForm yields
the intermediate awaiting-input outcome with status left at
`waiting_for_input` (not `completed`); full success sets status
`completed`; an initialization or login failure, or a fillForm
exception / safety-check crash, short-circuits the rest and leaves
status `error`; **but** a fillForm rejection for an empty email body,
while still short-circuiting with a failure result, leaves status at
`logged_in` rather than `error` (see the counterexample theorem). -/
theorem c9_run_full_driver (s : AutomationSession) (envLogin : AgentOutcome) (envFill : AgentEnv) :
    (∀ assigned msg,
      (run_automation s (.exception assigned msg) envLogin envFill).state.status = "error" ∧
      (run_automation s (.exception assigned msg) envLogin envFill).result =
        OpResult.failureMsg "Failed to initialize Scrapybara" ∧
      (run_automation s (.exception assigned msg) envLogin envFill).sentPrompts = []) ∧
    (∀ instId,
      ((pyFalsy s.credentials.destination_url || pyFalsy s.credentials.username ||
          pyFalsy s.credentials.password) = true →
        (run_automation s (.started instId) envLogin envFill).state.status = "error" ∧
        (run_automation s (.started instId) envLogin envFill).result =
          OpResult.failureMsg "Failed to login to the website") ∧
      ((pyFalsy s.credentials.destination_url || pyFalsy s.credentials.username ||
          pyFalsy s.credentials.password) = false →
        (∀ m, envLogin = .exception m →
          (run_automation s (.started instId) envLogin envFill).state.status = "error" ∧
          (run_automation s (.started instId) envLogin envFill).result =
            OpResult.failureMsg "Failed to login to the website") ∧
        (∀ lg lgp, envLogin = .success lg lgp →
          (s.email_content.body.getD "" = "" →
            (run_automation s (.started instId) envLogin envFill).state.status = "logged_in" ∧
            (run_automation s (.started instId) envLogin envFill).state.status ≠ "error" ∧
            (run_automation s (.started instId) envLogin envFill).result =
              OpResult.failureMsg "Form filling failed") ∧
          (s.email_content.body.getD "" ≠ "" →
            (∀ m, envFill.first = .exception m →
              (run_automation s (.started instId) envLogin envFill).state.status = "error" ∧
              (run_automation s (.started instId) envLogin envFill).result =
                OpResult.failureMsg "Form filling failed") ∧
            (∀ out, envFill.first = .success out true →
              (run_automation s (.started instId) envLogin envFill).state.status = "error" ∧
              (run_automation s (.started instId) envLogin envFill).result =
                OpResult.failureMsg "Form filling failed") ∧
            (∀ out, envFill.first = .success out false →
              (containsMarker out = true →
                (run_automation s (.started instId) envLogin envFill).state.status =
                  "waiting_for_input" ∧
                (run_automation s (.started instId) envLogin envFill).state.status ≠
                  "completed" ∧
                (run_automation s (.started instId) envLogin envFill).result =
                  OpResult.awaitingInput (parse_field out)
                    (humanPromptFor (parse_field out) (parse_explanation out))) ∧
              (containsMarker out = false →
                (run_automation s (.started instId) envLogin envFill).state.status =
                  "completed" ∧
                (run_automation s (.started instId) envLogin envFill).result =
                  OpResult.successMsg "Automation completed successfully" ∧
                (run_automation s (.started instId) envLogin envFill).sentPrompts =
                  [login_prompt (s.credentials.destination_url.getD "")
                    (s.credentials.username.getD "") (s.credentials.password.getD ""),
                   fill_prompt (s.email_content.body.getD "")] ∧
                (run_automation s (.started instId) envLogin envFill).statusTrace =
                  ["initializing", "initialized", "logging_in", "logged_in",
                   "filling_form", "form_filled", "completed"])))))) := by
  refine ⟨?_, ?_⟩
  · intro assigned msg
    simp [run_automation, initScrapybara, logE, bne_iff_ne]
  · intro instId
    refine ⟨?_, ?_⟩
    · intro hf
      simp [run_automation, initScrapybara, login_with_agent, logE, bne_iff_ne, hf]
    · intro hf
      refine ⟨?_, ?_⟩
      · intro m hL
        subst hL
        simp [run_automation, initScrapybara, login_with_agent, logE, bne_iff_ne, hf]
      · intro lg lgp hL
        subst hL
        refine ⟨?_, ?_⟩
        · intro hb
          simp [run_automation, initScrapybara, login_with_agent, fill_applicant_form,
            logE, bne_iff_ne, hf, hb]
        · intro hb
          refine ⟨?_, ?_, ?_⟩
          · intro m hF
            rcases envFill with ⟨efst, esnd⟩
            cases hF
            simp [run_automation, initScrapybara, login_with_agent, fill_applicant_form,
              logE, bne_iff_ne, hf, hb]
          · intro out hF
            rcases envFill with ⟨efst, esnd⟩
            cases hF
            simp [run_automation, initScrapybara, login_with_agent, fill_applicant_form,
              agentResultTail, logE, bne_iff_ne, hf, hb]
          · intro out hF
            rcases envFill with ⟨efst, esnd⟩
            cases hF
            refine ⟨?_, ?_⟩ <;> intro hm <;>
              simp [run_automation, initScrapybara, login_with_agent, fill_applicant_form,
                agentResultTail, logE, bne_iff_ne, hf, hb, hm]

theorem c9_witness :
    (run_automation sessionEx (.started "inst-1") (.success "logged in" false)
        envNoMarkerEx).state.status = "completed" ∧
    (run_automation sessionEx (.started "inst-1") (.success "logged in" false)
        envNoMarkerEx).result = OpResult.successMsg "Automation completed successfully" ∧
    (run_automation sessionEx (.started "inst-1") (.success "logged in" false)
        envNoMarkerEx).statusTrace =
      ["initializing", "initialized", "logging_in", "logged_in",
       "filling_form", "form_filled", "completed"] := by
  have he : envNoMarkerEx =
      ⟨.success "Form submitted successfully." false, .success "ack" false⟩ := rfl
  rw [he]
  have h := ((((c9_run_full_driver sessionEx (.success "logged in" false)
      ⟨.success "Form submitted successfully." false, .success "ack" false⟩).2 "inst-1").2
      (by decide)).2 "logged in" false rfl).2 (by decide)
  have h2 := (h.2.2 "Form submitted successfully." rfl).2 (by decide)
  exact ⟨h2.1, h2.2.1, h2.2.2.2⟩

/-- C9 counterexample: with an empty email body, `run_automation`
short-circuits with a failure result, but the final status is
`logged_in`, not `error` as the claim states for every step
failure. -/
theorem c9_counterexample :
    (run_automation (freshSession credsEx ⟨some "New Lead", some ""⟩) (.started "inst-1")
        (.success "logged in" false) envNoMarkerEx).result =
      OpResult.failureMsg "Form filling failed" ∧
    (run_automation (freshSession credsEx ⟨some "New Lead", some ""⟩) (.started "inst-1")
        (.success "logged in" false) envNoMarkerEx).state.status = "logged_in" ∧
    (run_automation (freshSession credsEx ⟨some "New Lead", some ""⟩) (.started "inst-1")
        (.success "logged in" false) envNoMarkerEx).state.status ≠ "error" := by
  decide

/-- A waiting session whose handle is (hypothetically) unset: the
status precondition of `provide_human_input` holds, yet the handle
guard fires first. -/
def waitingNoHandleEx : AutomationSession := { waitingEx with computer := false }

/-- C10: with the remote-session handle unset, `login`, `fillForm`
and `provideHumanInput` each immediately return a failure (`False`)
after logging `"Scrapybara instance not initialized"`, make no agent
call and no status assignment, and leave the whole session state
unchanged apart from that log entry — even when the operation's
status precondition holds. -/
theorem c10_guards_without_handle (s : AutomationSession) (v : String)
    (envL : AgentOutcome) (envF envP : AgentEnv) (hc : s.computer = false) :
    login_with_agent s envL =
      ⟨logE s "Scrapybara instance not initialized" "error", OpResult.retFalse, [], []⟩ ∧
    fill_applicant_form s envF =
      ⟨logE s "Scrapybara instance not initialized" "error", OpResult.retFalse, [], []⟩ ∧
    provide_human_input s v envP =
      ⟨logE s "Scrapybara instance not initialized" "error", OpResult.retFalse, [], []⟩ := by
  refine ⟨?_, ?_, ?_⟩ <;>
    simp [login_with_agent, fill_applicant_form, provide_human_input, hc]

theorem c10_witness :
    login_with_agent waitingNoHandleEx (.success "agent output" false) =
      ⟨logE waitingNoHandleEx "Scrapybara instance not initialized" "error",
        OpResult.retFalse, [], []⟩ ∧
    fill_applicant_form waitingNoHandleEx envNoMarkerEx =
      ⟨logE waitingNoHandleEx "Scrapybara instance not initialized" "error",
        OpResult.retFalse, [], []⟩ ∧
    provide_human_input waitingNoHandleEx "123 Main St" envNoMarkerEx =
      ⟨logE waitingNoHandleEx "Scrapybara instance not initialized" "error",
        OpResult.retFalse, [], []⟩ :=
  c10_guards_without_handle waitingNoHandleEx "123 Main St" (.success "agent output" false)
    envNoMarkerEx envNoMarkerEx rfl
